import Mathlib

/-!
Shallow embedding of `air_quality_dashboard.py` (an air-quality dashboard
script built on pandas/Dash) and proofs about the claims of its
specification.

Modelling conventions:
* a pandas DataFrame is a `List` of row structures; a missing cell (NaN) is
  `Option.none`;
* timestamps are integers (seconds); `pd.to_datetime` is modelled as an
  integer parse that raises on unparseable non-missing strings and maps a
  missing cell to NaT (`none`), matching its whole-column raise-on-error
  behaviour; `.dt.date` truncates to the day;
* numeric values are rationals; `pd.to_numeric(errors := coerce)` is a total
  decimal parse returning `none` on failure;
* a fallible Python call is an `Except`; `try/except` is a `match` on it;
* `np.random` is an abstract stream `rng : Nat -> Nat` of draws, consumed in
  program order; `np.random.randint lo hi` maps a draw into `[lo, hi)` by
  remainder, and uniformity of the result under a uniform source is proved
  about that map;
* groupby keys are listed in first-occurrence order (pandas sorts them; no
  claim depends on the order), and groupby drops rows whose key contains a
  missing value, as pandas does by default.
-/

/-- One raw CSV record of `sensor_reading.csv` as `pd.read_csv` delivers it:
every cell a string or missing. -/
structure RawRow where
  sensor_id : Option String
  sensor_type : Option String
  location : Option String
  value_type : Option String
  air_quality_index : Option String
  timestamp : Option String
deriving DecidableEq, Repr

/-- The sensor file handed to the loader.  `missing` is file-not-found;
`malformed` is any CSV-level failure `pd.read_csv` or a column access raises
(missing column, wrong dtype for the `.str` accessor); `ok` is a parsed
table. -/
inductive SensorFile where
  | missing : SensorFile
  | malformed : String → SensorFile
  | ok : List RawRow → SensorFile
deriving DecidableEq, Repr

/-- Errors the sensor-loading pipeline can raise. -/
inductive LoadErr where
  | fileNotFound : LoadErr
  | badFile : String → LoadErr
  | badTimestamp : String → LoadErr
deriving DecidableEq, Repr

/-- Model of the pandas quote strip: remove all leading and trailing
single-quote characters. -/
def stripQ (s : String) : String :=
  String.mk (((s.toList.dropWhile (· = '\'')).reverse.dropWhile (· = '\'')).reverse)

/-- The quote strip lifted over a possibly-missing cell (NaN passes
through). -/
def stripOpt (s : Option String) : Option String := s.map stripQ

/-- The quote-cleaning pass over the four string columns (`sensor_id`,
`sensor_type`, `location`, `value_type`); `air_quality_index` and
`timestamp` are untouched at this stage, as in the source. -/
def cleanStrings (r : RawRow) : RawRow :=
  { r with
    sensor_id := stripOpt r.sensor_id
    sensor_type := stripOpt r.sensor_type
    location := stripOpt r.location
    value_type := stripOpt r.value_type }

/-- A row after `pd.to_datetime` on the `timestamp` column. -/
structure TsRow where
  timestamp : Option Int
  location : Option String
  sensor_id : Option String
  value_type : Option String
  air_quality_index : Option String
deriving DecidableEq, Repr

/-- The numeric value of a digit character. -/
def digitVal (c : Char) : Option ℕ :=
  if c.isDigit then some (c.toNat - 48) else none

/-- Accumulate a decimal numeral, failing on the first non-digit. -/
def natFromDigitsAux : List Char → ℕ → Option ℕ
  | [], acc => some acc
  | c :: cs, acc =>
    match digitVal c with
    | some d => natFromDigitsAux cs (acc * 10 + d)
    | none => none

/-- A non-empty all-digit numeral. -/
def natFromDigits (cs : List Char) : Option ℕ :=
  if cs = [] then none else natFromDigitsAux cs 0

/-- An optionally negated decimal numeral. -/
def intFromChars (cs : List Char) : Option ℤ :=
  match cs with
  | '-' :: rest => (natFromDigits rest).map (fun n => -(n : ℤ))
  | _ => (natFromDigits cs).map (fun n => (n : ℤ))

/-- Integer parse of a string. -/
def parseInt (s : String) : Option ℤ := intFromChars s.toList

/-- Model of `pd.to_datetime` on one cell: missing becomes NaT, an
unparseable non-missing string raises (the whole column fails).  Date-time
values are modelled as integers. -/
def toDatetime (s : Option String) : Except LoadErr (Option Int) :=
  match s with
  | none => .ok none
  | some str =>
    match parseInt str with
    | some t => .ok (some t)
    | none => .error (.badTimestamp str)

/-- The timestamp conversion applied over the whole column. -/
def parseTimestamps (rows : List RawRow) : Except LoadErr (List TsRow) :=
  rows.mapM fun r => do
    let t ← toDatetime r.timestamp
    pure { timestamp := t, location := r.location, sensor_id := r.sensor_id,
           value_type := r.value_type, air_quality_index := r.air_quality_index }

/-- Split a character list at every dot. -/
def splitOnDot : List Char → List (List Char)
  | [] => [[]]
  | c :: cs =>
    let r := splitOnDot cs
    if c = '.' then [] :: r
    else
      match r with
      | [] => [[c]]
      | h :: t => (c :: h) :: t

/-- Decimal numeral parse standing in for pandas numeric parsing:
an optional sign, an integer part, an optional fractional part. -/
def parseNum (s : String) : Option ℚ :=
  match splitOnDot s.toList with
  | [intPart] => (intFromChars intPart).map (fun z => (z : ℚ))
  | [intPart, fracPart] =>
    match intFromChars intPart, natFromDigits fracPart with
    | some z, some f =>
      let d : ℚ := (10 : ℚ) ^ fracPart.length
      some (if z < 0 then (z : ℚ) - (f : ℚ) / d else (z : ℚ) + (f : ℚ) / d)
    | _, _ => none
  | _ => none

/-- A row after `pd.to_numeric` on `air_quality_index`. -/
structure ParsedRow where
  timestamp : Option Int
  location : Option String
  sensor_id : Option String
  value_type : Option String
  air_quality_index : Option ℚ
deriving DecidableEq, Repr

/-- The numeric coercion of `air_quality_index`: strip quotes, parse, keep
the row with a missing value on failure (pandas coerce mode). -/
def coerceAqi (r : TsRow) : ParsedRow :=
  { timestamp := r.timestamp, location := r.location, sensor_id := r.sensor_id,
    value_type := r.value_type,
    air_quality_index :=
      match r.air_quality_index with
      | none => none
      | some s => parseNum (stripQ s) }

/-- The `value_type` allow-list test (pandas `isin`): a missing
`value_type` is not in the allow-list. -/
def valueTypeAllowed (v : Option String) : Bool :=
  match v with
  | some s => s = "P0" || s = "P1" || s = "P2"
  | none => false

/-- An aggregated reading: one output row of the loader. -/
structure AggRow where
  timestamp : Int
  location : String
  sensor_id : String
  air_quality_index : Option ℚ
deriving DecidableEq, Repr

/-- The groupby key of a row; `none` when any key column is missing (pandas
drops such rows from the groupby). -/
def keyOf (r : ParsedRow) : Option (Int × String × String) :=
  match r.timestamp, r.location, r.sensor_id with
  | some t, some l, some s => some (t, l, s)
  | _, _, _ => none

/-- The distinct groupby keys, first occurrence first. -/
def keysOf (rows : List ParsedRow) : List (Int × String × String) :=
  (rows.filterMap keyOf).dedup

/-- The non-missing `air_quality_index` values of the rows with key `k`. -/
def valsFor (rows : List ParsedRow) (k : Int × String × String) : List ℚ :=
  (rows.filter (fun r => keyOf r = some k)).filterMap (·.air_quality_index)

/-- Mean of a value list, pandas-style: the mean of an empty (all-missing)
group is NaN. -/
def meanOpt (l : List ℚ) : Option ℚ :=
  if l = [] then none else some (l.sum / (l.length : ℚ))

/-- The groupby-mean over `(timestamp, location, sensor_id)` of
`air_quality_index`: one row per distinct key, value the mean of the key's
non-missing values. -/
def groupbyMean (rows : List ParsedRow) : List AggRow :=
  (keysOf rows).map fun k =>
    { timestamp := k.1, location := k.2.1, sensor_id := k.2.2,
      air_quality_index := meanOpt (valsFor rows k) }

/-- The body of the `try` block of `load_and_process_sensor_data`: read,
clean quotes, parse timestamps, coerce the index, filter the measurement
kinds, aggregate. -/
def parsePipeline (file : SensorFile) : Except LoadErr (List AggRow) := do
  let rows ← match file with
    | .missing => Except.error LoadErr.fileNotFound
    | .malformed e => Except.error (LoadErr.badFile e)
    | .ok rows => Except.ok rows
  let cleaned := rows.map cleanStrings
  let parsed ← parseTimestamps cleaned
  let coerced := parsed.map coerceAqi
  let filtered := coerced.filter (fun r => valueTypeAllowed r.value_type)
  pure (groupbyMean filtered)

/-- The fixed location set of the synthetic generator. -/
def sampleLocations : List String := ["Location A", "Location B", "Location C"]

/-- Model of `np.random.randint lo hi` applied to one draw of the abstract
stream: a value in `[lo, hi)`. -/
def randint (lo hi : ℕ) (r : ℕ) : ℕ := lo + r % (hi - lo)

/-- One synthetic row: location index `li`, day index `di` into the
30-day window ending at `now`; the row's two random draws sit at stream
positions `2*n` and `2*n+1` where `n = 30*li + di` is the row number. -/
def sampleRow (now : Int) (rng : ℕ → ℕ) (li di : ℕ) : AggRow :=
  let n := 30 * li + di
  { timestamp := now - 29 + di,
    location := sampleLocations.getD li "",
    sensor_id := "SENSOR_" ++ toString (randint 1 5 (rng (2 * n + 1))),
    air_quality_index := some ((randint 0 200 (rng (2 * n)) : ℕ) : ℚ) }

/-- The synthetic generator `create_sample_data`: for each of the 3
locations and each of the 30 consecutive days ending at `now`, one row with
a random index in `[0, 200)` and a random sensor label
`SENSOR_1 .. SENSOR_4`. -/
def create_sample_data (now : Int) (rng : ℕ → ℕ) : List AggRow :=
  (List.range 3).flatMap fun li =>
    (List.range 30).map fun di => sampleRow now rng li di

/-- The sensor loader `load_and_process_sensor_data`: the parsing pipeline
inside a `try/except` whose handler returns `create_sample_data`. -/
def load_and_process_sensor_data (file : SensorFile) (now : Int)
    (rng : ℕ → ℕ) : List AggRow :=
  match parsePipeline file with
  | .ok d => d
  | .error _ => create_sample_data now rng

/-- The filter step of `update_figures`: restrict to the selected locations
when the selection is non-empty (Python truthiness of the list), then to the
inclusive date range when both bounds are present. -/
def update_figures_filter (df : List AggRow) (locs : List String)
    (sd ed : Option Int) : List AggRow :=
  let f1 := match locs with
    | [] => df
    | _ => df.filter (fun r => decide (r.location ∈ locs))
  match sd, ed with
  | some s, some e => f1.filter (fun r => decide (s ≤ r.timestamp ∧ r.timestamp ≤ e))
  | _, _ => f1

/-- Rounding to two decimal places, standing in for the `:.2f` format of the
statistics strings. -/
def round2 (q : ℚ) : ℚ := ((round (q * 100) : ℤ) : ℚ) / 100

/-- Series maximum, pandas-style: NaN on an empty series. -/
def maxOpt (l : List ℚ) : Option ℚ := l.max?

/-- Series minimum, pandas-style: NaN on an empty series. -/
def minOpt (l : List ℚ) : Option ℚ := l.min?

/-- One per-location statistics block of the statistics section; the three
displayed values carry the two-decimal formatting, `count` is the row
count. -/
structure LocStats where
  location : String
  mean2 : Option ℚ
  max2 : Option ℚ
  min2 : Option ℚ
  count : ℕ
deriving DecidableEq, Repr

/-- The statistics section of `update_figures`: one block per selected
location, each computed over the filtered rows of that location; the mean,
max and min skip missing values and are NaN (`none`) on an empty
selection. -/
def statisticsSection (filtered : List AggRow) (locs : List String) :
    List LocStats :=
  locs.map fun loc =>
    let locData := filtered.filter (fun r => r.location = loc)
    let vals := locData.filterMap (·.air_quality_index)
    { location := loc,
      mean2 := (meanOpt vals).map round2,
      max2 := (maxOpt vals).map round2,
      min2 := (minOpt vals).map round2,
      count := locData.length }

/-- Errors `pd.read_csv` raises in the research loader. -/
inductive ReadErr where
  | fileMissing : String → ReadErr
  | parseFail : String → ReadErr
deriving DecidableEq, Repr

/-- One raw record of `research_findings.csv`. -/
structure FindingsRow where
  category : Option String
  detail : Option String
deriving DecidableEq, Repr

/-- One raw record of `health_correlations.csv`. -/
structure CorrRow where
  parameter : Option String
  detail : Option String
  value : Option String
deriving DecidableEq, Repr

/-- A correlation record after `pd.to_numeric` on `value`. -/
structure CorrParsed where
  parameter : Option String
  detail : Option String
  value : Option ℚ
deriving DecidableEq, Repr

/-- The numeric coercion of `value` on one correlation row (pandas coerce
mode): unparseable entries become missing, the row is kept. -/
def coerceValue (r : CorrRow) : CorrParsed :=
  { parameter := r.parameter, detail := r.detail,
    value := r.value.bind parseNum }

/-- The findings groupby-count over `category` of `detail`: one entry per
distinct non-missing category (first occurrence first), counting that
category's rows with a non-missing `detail` (pandas count skips NaN
cells). -/
def categoryCounts (rows : List FindingsRow) : List (String × ℕ) :=
  ((rows.filterMap (·.category)).dedup).map fun c =>
    (c, ((rows.filter (fun r => r.category = some c)).filterMap (·.detail)).length)

/-- The research loader `load_research_findings`: read both CSVs (each read
may raise and nothing here catches), count findings per category, coerce
the correlation values. -/
def load_research_findings (findings : Except ReadErr (List FindingsRow))
    (correls : Except ReadErr (List CorrRow)) :
    Except ReadErr (List FindingsRow × List CorrParsed × List (String × ℕ)) := do
  let fdf ← findings
  let cdf ← correls
  let byCat := categoryCounts fdf
  let cparsed := cdf.map coerceValue
  pure (fdf, cparsed, byCat)

/-- A chart object, carrying the data frame it was built from; `emptyBar`
is the argumentless `px.bar ()` placeholder. -/
inductive Fig where
  | emptyBar : Fig
  | bar : List CorrParsed → Fig
  | scatter : List CorrParsed → Fig
deriving DecidableEq, Repr

/-- The rows handed to the health-metrics bar chart: correlation rows with a
present numeric value. -/
def validData (cdf : List CorrParsed) : List CorrParsed :=
  cdf.filter (fun r => r.value.isSome)

/-- The rows of the two named trend parameters. -/
def trendsData (cdf : List CorrParsed) : List CorrParsed :=
  cdf.filter (fun r =>
    r.parameter = some "PM2.5 Levels" || r.parameter = some "Health Implications")

/-- The rows handed to the PM2.5 bar chart of the key-findings page: filtered
by parameter only, missing values are not removed. -/
def pm25Subset (cdf : List CorrParsed) : List CorrParsed :=
  cdf.filter (fun r => r.parameter = some "PM2.5 Levels")

/-- The rows handed to the health-risk scatter of the key-findings page:
health-implication rows whose value is present. -/
def healthRiskSubset (cdf : List CorrParsed) : List CorrParsed :=
  cdf.filter (fun r => r.parameter = some "Health Implications" && r.value.isSome)

/-- The three static key-findings cards (fixed content, not data-derived). -/
def findingCards : List (String × List String) :=
  [("Pollution Sources",
    ["Traffic-related emissions",
     "Indoor air pollution (vapors, dusts, smoke)",
     "Waste management practices"]),
   ("Vulnerable Groups",
    ["Children with developing lungs",
     "Preterm/low birth weight infants",
     "Residents with limited healthcare access"]),
   ("Study Limitations",
    ["Cross-sectional design",
     "Limited longitudinal data",
     "Indirect waste pollution inference"])]

/-- An HTML content block returned by a callback. -/
inductive Content where
  | errorFindingsDiv : Content
  | errorHealthDiv : Content
  | healthPage : List CorrParsed → List CorrParsed →
      List (String × List String) → Content
deriving DecidableEq, Repr

/-- The module-level state `create_health_correlations_page` closes over:
the `correlations_df` global (unbound when the module is imported rather
than run, hence `Option`) and the current contents of
`health_correlations.csv` as the next read will deliver them. -/
structure ModuleEnv where
  correlations_df : Option (List CorrParsed)
  healthFile : Except ReadErr (List CorrRow)

/-- The page builder `create_health_correlations_page`: builds the
key-findings page from the module-level `correlations_df`; its `try/except`
turns the `NameError` of an unbound global into the fixed error placeholder
div. -/
def create_health_correlations_page (env : ModuleEnv) : Content :=
  match env.correlations_df with
  | none => .errorHealthDiv
  | some df => .healthPage (pm25Subset df) (healthRiskSubset df) findingCards

/-- The tab-change callback `update_research_findings`: re-read
`health_correlations.csv` into a
local, coerce, build the two figures from the fresh rows, and delegate the
key-findings content to `create_health_correlations_page` (which reads the
module global instead); any error in the body is caught and replaced by
empty placeholder figures and an error message.  The module state is
returned to record that the callback never rebinds it. -/
def update_research_findings (env : ModuleEnv) :
    (Fig × Fig × Content) × ModuleEnv :=
  match env.healthFile with
  | .error _ => ((.emptyBar, .emptyBar, .errorFindingsDiv), env)
  | .ok rows =>
    let cdf := rows.map coerceValue
    let health_metrics := Fig.bar (validData cdf)
    let trends_viz := Fig.scatter (validData (trendsData cdf))
    let key_findings := create_health_correlations_page env
    ((health_metrics, trends_viz, key_findings), env)

/-- Truncation of a timestamp (seconds) to its day, modelling the date
accessor. -/
def dateOf (t : Int) : Int := t / 86400

/-- A sensor row after `filtered_df.date := filtered_df.timestamp.dt.date`
added a date column in place. -/
structure DatedRow where
  row : AggRow
  date : Int
deriving DecidableEq, Repr

/-- One row of the daily-averages frame `daily_avg`. -/
structure DailyRow where
  location : String
  date : Int
  air_quality_index : Option ℚ
deriving DecidableEq, Repr

/-- The daily groupby-mean over `(location, date)` of
`air_quality_index`. -/
def groupbyDaily (rows : List DatedRow) : List DailyRow :=
  ((rows.map (fun r => (r.row.location, r.date))).dedup).map fun k =>
    { location := k.1, date := k.2,
      air_quality_index :=
        meanOpt (((rows.filter (fun r => r.row.location = k.1 ∧ r.date = k.2))).filterMap
          (·.row.air_quality_index)) }

/-- A DataFrame object on the Python heap: the loaded sensor frame, the
same frame after the in-place date-column assignment, or a daily-averages
frame. -/
inductive DObj where
  | plain : List AggRow → DObj
  | dated : List DatedRow → DObj
  | daily : List DailyRow → DObj
deriving DecidableEq, Repr

/-- The object store: references are indices, `alloc` appends a fresh
object, `write` is an in-place mutation of an existing one. -/
structure Store where
  objs : List DObj
deriving DecidableEq, Repr

/-- Read the object a reference points to. -/
def Store.readRef (st : Store) (r : ℕ) : Option DObj := st.objs.get? r

/-- Allocate a fresh object, returning its reference. -/
def Store.alloc (st : Store) (o : DObj) : Store × ℕ :=
  ({ objs := st.objs ++ [o] }, st.objs.length)

/-- Mutate the object at an existing reference in place. -/
def Store.write (st : Store) (r : ℕ) (o : DObj) : Store :=
  { objs := st.objs.set r o }

/-- The rows of a plain sensor frame (a dated or daily frame never reaches
the places this is used). -/
def DObj.rows : DObj → List AggRow
  | .plain r => r
  | .dated r => r.map (·.row)
  | .daily _ => []

/-- The filter callback `update_figures` over the heap: `sensorRef` is the
module binding
`sensor_data`.  `copy` allocates a duplicate object; each boolean-mask
filter rebinds the local `filtered_df` to a freshly allocated frame; the
date-column assignment mutates that fresh frame in place; the groupby
allocates the daily frame.  Returns the final store together with the
filtered rows, the daily averages and the statistics section that make up
the callback's outputs. -/
def update_figures (st : Store) (sensorRef : ℕ) (locs : List String)
    (sd ed : Option Int) :
    Store × List AggRow × List DailyRow × List LocStats :=
  match st.readRef sensorRef with
  | none => (st, [], [], [])
  | some obj =>
    let baseRows := obj.rows
    let (st1, _copyRef) := st.alloc (.plain baseRows)
    let rows1 := update_figures_filter baseRows locs sd ed
    let (st2, filteredRef) := st1.alloc (.plain rows1)
    let dated := rows1.map (fun r => DatedRow.mk r (dateOf r.timestamp))
    let st3 := st2.write filteredRef (.dated dated)
    let daily := groupbyDaily dated
    let (st4, _dailyRef) := st3.alloc (.daily daily)
    let stats := statisticsSection rows1 locs
    (st4, rows1, daily, stats)

/-! ### Helper lemmas -/

theorem length_filterMap_eq_filter_isSome {α β : Type} (f : α → Option β)
    (l : List α) :
    (l.filterMap f).length = (l.filter (fun a => (f a).isSome)).length := by
  induction l with
  | nil => rfl
  | cons a l ih =>
    cases h : f a <;>
      simp [List.filterMap_cons, List.filter_cons, h, ih]

theorem randint_lower (lo hi r : ℕ) : lo ≤ randint lo hi r := by
  simp [randint]

theorem randint_upper (lo hi r : ℕ) (h : lo < hi) : randint lo hi r < hi := by
  have hm : r % (hi - lo) < hi - lo := Nat.mod_lt _ (by omega)
  simp only [randint]
  omega

theorem filter_mod_card (n k v : ℕ) (hn : 0 < n) (hv : v < n) :
    ((Finset.range (n * k)).filter (fun r => r % n = v)).card = k := by
  have himg : (Finset.range (n * k)).filter (fun r => r % n = v)
      = (Finset.range k).image (fun i => n * i + v) := by
    ext r
    simp only [Finset.mem_filter, Finset.mem_range, Finset.mem_image]
    constructor
    · rintro ⟨hr, hmod⟩
      refine ⟨r / n, ?_, ?_⟩
      · exact (Nat.div_lt_iff_lt_mul hn).mpr (by rwa [Nat.mul_comm] at hr)
      · have hdm := Nat.div_add_mod r n
        omega
    · rintro ⟨i, hi, rfl⟩
      refine ⟨?_, ?_⟩
      · have h1 : n * (i + 1) ≤ n * k := Nat.mul_le_mul_left n hi
        rw [Nat.mul_succ] at h1
        omega
      · rw [Nat.mul_add_mod]
        exact Nat.mod_eq_of_lt hv
  rw [himg, Finset.card_image_of_injective _ (fun a b hab => by
    exact Nat.eq_of_mul_eq_mul_left hn (Nat.add_right_cancel hab)),
    Finset.card_range]

/-! ### Claims -/

/-- C1: for every input file, if any step of sensor-data loading fails
(missing file, malformed column, type-coercion exception) then
`load_and_process_sensor_data` does not propagate the error: it returns the
output of `create_sample_data`; otherwise it returns the
parsed-and-aggregated dataset.  Missing and malformed files are failing
inputs of the pipeline. -/
theorem load_sensor_fallback_policy (file : SensorFile) (now : Int)
    (rng : ℕ → ℕ) :
    (∀ e, parsePipeline file = .error e →
        load_and_process_sensor_data file now rng = create_sample_data now rng)
    ∧ (∀ d, parsePipeline file = .ok d →
        load_and_process_sensor_data file now rng = d)
    ∧ (∀ rows parsed, file = SensorFile.ok rows →
        parseTimestamps (rows.map cleanStrings) = .ok parsed →
        load_and_process_sensor_data file now rng =
          groupbyMean ((parsed.map coerceAqi).filter
            (fun r => valueTypeAllowed r.value_type)))
    ∧ (∃ e, parsePipeline SensorFile.missing = .error e)
    ∧ (∀ s, ∃ e, parsePipeline (SensorFile.malformed s) = .error e) := by
  refine ⟨?_, ?_, ?_, ⟨.fileNotFound, rfl⟩, fun s => ⟨.badFile s, rfl⟩⟩
  · intro e he
    simp [load_and_process_sensor_data, he]
  · intro d hd
    simp [load_and_process_sensor_data, hd]
  · intro rows parsed hfile hparse
    subst hfile
    simp [load_and_process_sensor_data, parsePipeline, hparse, Bind.bind,
      Except.bind, pure, Except.pure]

/-- Concrete raw record used to instantiate C1's success case. -/
def c1Row : RawRow :=
  { sensor_id := some "'s1'", sensor_type := some "t",
    location := some "'Berlin'", value_type := some "'P1'",
    air_quality_index := some "'10'", timestamp := some "100" }

/-- The C1 witness record after timestamp parsing. -/
def c1Parsed : TsRow :=
  { timestamp := some 100, location := some "Berlin", sensor_id := some "s1",
    value_type := some "P1", air_quality_index := some "'10'" }

/-- The C1 witness record after numeric coercion. -/
def c1Coerced : ParsedRow :=
  { timestamp := some 100, location := some "Berlin", sensor_id := some "s1",
    value_type := some "P1", air_quality_index := some 10 }

/-- The aggregated output row of the C1 witness. -/
def c1Agg : AggRow :=
  { timestamp := 100, location := "Berlin", sensor_id := "s1",
    air_quality_index := some 10 }

/-- The same row with its mean still unevaluated. -/
def c1AggMean : AggRow :=
  { timestamp := 100, location := "Berlin", sensor_id := "s1",
    air_quality_index := meanOpt [10] }

/-- Witness for C1: a missing file falls back to sample data, and a
well-formed one-row file loads to its aggregated reading. -/
theorem load_sensor_fallback_policy_witness :
    load_and_process_sensor_data SensorFile.missing 0 (fun _ => 0)
        = create_sample_data 0 (fun _ => 0)
    ∧ load_and_process_sensor_data (SensorFile.ok [c1Row]) 0 (fun _ => 0)
        = [c1Agg] := by
  constructor
  · exact (load_sensor_fallback_policy SensorFile.missing 0 (fun _ => 0)).1
      LoadErr.fileNotFound rfl
  · have h := (load_sensor_fallback_policy (SensorFile.ok [c1Row]) 0
      (fun _ => 0)).2.2.1 [c1Row] [c1Parsed] rfl rfl
    rw [h]
    have hXf : ([c1Parsed].map coerceAqi).filter
        (fun r => valueTypeAllowed r.value_type) = [c1Coerced] := by decide
    rw [hXf]
    have h4 : groupbyMean [c1Coerced] = [c1AggMean] := rfl
    rw [h4]
    norm_num [c1AggMean, c1Agg, meanOpt]

/-- C2: for the `N` rows remaining after the `value_type` restriction,
the aggregation step produces at most `N` rows with pairwise-distinct
`(timestamp, location, sensor_id)` keys, each row's `air_quality_index`
being the mean of the non-missing values of the input rows sharing its key;
and the numeric coercion step keeps every row (a failed coercion only turns
its value into missing, leaving the other columns intact). -/
theorem aggregation_mean_per_key (rows : List ParsedRow) (pre : List TsRow) :
    (groupbyMean rows).length ≤ rows.length
    ∧ ((groupbyMean rows).map
        (fun a => (a.timestamp, a.location, a.sensor_id))).Nodup
    ∧ (∀ a ∈ groupbyMean rows,
        a.air_quality_index =
          meanOpt ((rows.filter (fun r =>
              keyOf r = some (a.timestamp, a.location, a.sensor_id))).filterMap
            (·.air_quality_index)))
    ∧ (pre.map coerceAqi).length = pre.length
    ∧ (∀ r ∈ pre, (coerceAqi r).timestamp = r.timestamp ∧
        (coerceAqi r).location = r.location ∧
        (coerceAqi r).sensor_id = r.sensor_id ∧
        (coerceAqi r).value_type = r.value_type)
    ∧ (∀ r ∈ pre, ∀ s, r.air_quality_index = some s →
        parseNum (stripQ s) = none →
        (coerceAqi r).air_quality_index = none) := by
  refine ⟨?_, ?_, ?_, by simp, ?_, ?_⟩
  · calc (groupbyMean rows).length = (keysOf rows).length := by
          simp [groupbyMean]
      _ ≤ (rows.filterMap keyOf).length :=
          (List.dedup_sublist _).length_le
      _ ≤ rows.length := List.length_filterMap_le _ _
  · have hmap : ((groupbyMean rows).map
        (fun a => (a.timestamp, a.location, a.sensor_id))) = keysOf rows := by
      simp only [groupbyMean, List.map_map]
      exact List.map_id _
    rw [hmap]
    exact List.nodup_dedup _
  · intro a ha
    simp only [groupbyMean, List.mem_map] at ha
    obtain ⟨k, _, rfl⟩ := ha
    rfl
  · intro r _
    exact ⟨rfl, rfl, rfl, rfl⟩
  · intro r _ s hs hp
    simp [coerceAqi, hs, hp]

/-- The two-reading input of the C2 witness: both rows share the groupby
key `(1, A, s1)`. -/
def c2Rows : List ParsedRow :=
  [{ timestamp := some 1, location := some "A", sensor_id := some "s1",
     value_type := some "P1", air_quality_index := some 10 },
   { timestamp := some 1, location := some "A", sensor_id := some "s1",
     value_type := some "P1", air_quality_index := some 30 }]

/-- A pre-coercion row of the C2 witness whose index is not numeric. -/
def c2Pre : TsRow :=
  { timestamp := some 1, location := some "A", sensor_id := some "s1",
    value_type := some "P1", air_quality_index := some "abc" }

/-- The aggregated output row of the C2 witness. -/
def c2Agg : AggRow :=
  { timestamp := 1, location := "A", sensor_id := "s1",
    air_quality_index := some 20 }

/-- The same row with its mean still unevaluated. -/
def c2AggMean : AggRow :=
  { timestamp := 1, location := "A", sensor_id := "s1",
    air_quality_index := meanOpt [10, 30] }

/-- Witness for C2: two readings sharing a key aggregate to one row with
the mean value, and a non-numeric index is kept as a missing value. -/
theorem aggregation_mean_per_key_witness :
    (groupbyMean c2Rows).length ≤ c2Rows.length
    ∧ c2Agg.air_quality_index
        = meanOpt ((c2Rows.filter (fun r =>
            keyOf r = some (1, "A", "s1"))).filterMap (·.air_quality_index))
    ∧ (coerceAqi c2Pre).air_quality_index = none := by
  have h := aggregation_mean_per_key c2Rows [c2Pre]
  have hmem : c2Agg ∈ groupbyMean c2Rows := by
    have h1 : groupbyMean c2Rows = [c2AggMean] := rfl
    have h2 : c2AggMean = c2Agg := by
      norm_num [c2AggMean, c2Agg, meanOpt]
      simp
    rw [h1, h2]
    exact List.mem_singleton.mpr rfl
  refine ⟨h.1, ?_, ?_⟩
  · exact h.2.2.1 c2Agg hmem
  · exact h.2.2.2.2.2 c2Pre (by simp) "abc" rfl (by decide)

/-- C3: the filter step of `update_figures` returns exactly the rows
whose location is in the selected list (no location filtering when the
selection is empty) and whose timestamp lies in `[start, end]` inclusive
(no date filtering when either bound is absent); with an empty selection the
date-filtered dataset is returned unchanged in row count. -/
theorem update_filter_exact (df : List AggRow) (locs : List String)
    (sd ed : Option Int) :
    update_figures_filter df locs sd ed
      = df.filter (fun r =>
          (decide (locs = []) || decide (r.location ∈ locs)) &&
          (match sd, ed with
           | some s, some e =>
             decide (s ≤ r.timestamp) && decide (r.timestamp ≤ e)
           | _, _ => true))
    ∧ (update_figures_filter df [] sd ed).length
      = (df.filter (fun r =>
          match sd, ed with
          | some s, some e =>
            decide (s ≤ r.timestamp) && decide (r.timestamp ≤ e)
          | _, _ => true)).length := by
  have hmain : ∀ L : List String,
      update_figures_filter df L sd ed
        = df.filter (fun r =>
            (decide (L = []) || decide (r.location ∈ L)) &&
            (match sd, ed with
             | some s, some e =>
               decide (s ≤ r.timestamp) && decide (r.timestamp ≤ e)
             | _, _ => true)) := by
    intro L
    cases L with
    | nil =>
      cases sd <;> cases ed <;> simp [update_figures_filter]
    | cons a as =>
      cases sd <;> cases ed <;>
        simp [update_figures_filter, List.filter_filter, Bool.and_comm]
  refine ⟨hmain locs, ?_⟩
  rw [hmain []]
  simp

/-- C4: `create_sample_data` returns exactly 90 rows, one for each pair
of the 3 fixed locations and the 30 consecutive days ending at invocation
time; each row's index is `randint 0 200` of a fresh draw, hence a value in
`[0, 200)` taken uniformly from a uniform draw, and its sensor label is
`SENSOR_j` with `j = randint 1 5` of a fresh draw, hence uniform over a pool
of 4 labels. -/
theorem create_sample_data_spec (now : Int) (rng : ℕ → ℕ) (k : ℕ) :
    (create_sample_data now rng).length = 90
    ∧ (create_sample_data now rng).map (fun r => (r.location, r.timestamp))
        = sampleLocations.flatMap (fun loc =>
            (List.range 30).map (fun (di : ℕ) => (loc, now - 29 + (di : Int))))
    ∧ sampleLocations.length = 3 ∧ sampleLocations.Nodup
    ∧ (∀ li di : ℕ, li < 3 → di < 30 →
        sampleRow now rng li di ∈ create_sample_data now rng)
    ∧ (∀ li di : ℕ, (sampleRow now rng li di).timestamp = now - 29 + (di : Int))
    ∧ (∀ li di : ℕ, ∃ v : ℕ, v < 200 ∧
        (sampleRow now rng li di).air_quality_index = some ((v : ℚ)))
    ∧ (∀ li di : ℕ, ∃ j : ℕ, 1 ≤ j ∧ j < 5 ∧
        (sampleRow now rng li di).sensor_id = "SENSOR_" ++ toString j)
    ∧ (∀ v, v < 200 →
        ((Finset.range (200 * k)).filter
          (fun r => randint 0 200 r = v)).card = k)
    ∧ (∀ j, 1 ≤ j → j < 5 →
        ((Finset.range (4 * k)).filter
          (fun r => randint 1 5 r = j)).card = k) := by
  refine ⟨?_, ?_, rfl, by decide, ?_, fun li di => rfl, ?_, ?_, ?_, ?_⟩
  · simp only [create_sample_data,
      show List.range 3 = [0, 1, 2] from rfl]
    simp
  · simp only [create_sample_data,
      show List.range 3 = [0, 1, 2] from rfl,
      show sampleLocations = ["Location A", "Location B", "Location C"]
        from rfl]
    simp only [List.map_append, List.map_map, sampleRow, sampleLocations]
    rfl
  · intro li di h1 h2
    refine List.mem_flatMap.mpr ⟨li, List.mem_range.mpr h1, ?_⟩
    exact List.mem_map.mpr ⟨di, List.mem_range.mpr h2, rfl⟩
  · intro li di
    exact ⟨randint 0 200 (rng (2 * (30 * li + di))),
      randint_upper 0 200 _ (by norm_num), rfl⟩
  · intro li di
    exact ⟨randint 1 5 (rng (2 * (30 * li + di) + 1)),
      randint_lower 1 5 _, randint_upper 1 5 _ (by norm_num), rfl⟩
  · intro v hv
    calc ((Finset.range (200 * k)).filter
            (fun r => randint 0 200 r = v)).card
        = ((Finset.range (200 * k)).filter (fun r => r % 200 = v)).card := by
          congr 1
          exact Finset.filter_congr (fun x _ => by simp [randint])
      _ = k := filter_mod_card 200 k v (by norm_num) hv
  · intro j hj1 hj5
    calc ((Finset.range (4 * k)).filter
            (fun r => randint 1 5 r = j)).card
        = ((Finset.range (4 * k)).filter (fun r => r % 4 = j - 1)).card := by
          congr 1
          refine Finset.filter_congr (fun x _ => ?_)
          simp only [randint]
          constructor <;> intro h <;> omega
      _ = k := filter_mod_card 4 k (j - 1) (by norm_num) (by omega)

/-- Witness for C4: at a concrete clock and stream, the generator yields 90
rows, the row of the pair `(1, 5)` is present, and the `randint` maps are
uniform over one period of the source. -/
theorem create_sample_data_spec_witness :
    (create_sample_data 0 (fun n => n)).length = 90
    ∧ sampleRow 0 (fun n => n) 1 5 ∈ create_sample_data 0 (fun n => n)
    ∧ ((Finset.range (200 * 1)).filter
        (fun r => randint 0 200 r = 7)).card = 1
    ∧ ((Finset.range (4 * 1)).filter
        (fun r => randint 1 5 r = 2)).card = 1 := by
  have h := create_sample_data_spec 0 (fun n => n) 1
  exact ⟨h.1, h.2.2.2.2.1 1 5 (by norm_num) (by norm_num),
    h.2.2.2.2.2.2.2.2.1 7 (by norm_num),
    h.2.2.2.2.2.2.2.2.2 2 (by norm_num) (by norm_num)⟩

/-- C5: the statistics section holds one entry per selected location;
each entry's mean, max and min are computed over the filtered rows matching
that location and carry the two-decimal formatting, and its count is that
location's row count; a location with no matching rows yields NaN
mean/max/min and count 0 (the function is total, so no exception). -/
theorem statistics_section_spec (filtered : List AggRow) (locs : List String) :
    (statisticsSection filtered locs).map (·.location) = locs
    ∧ (∀ st ∈ statisticsSection filtered locs,
        st.mean2 = (meanOpt ((filtered.filter (fun r =>
            r.location = st.location)).filterMap
              (·.air_quality_index))).map round2
        ∧ st.max2 = (maxOpt ((filtered.filter (fun r =>
            r.location = st.location)).filterMap
              (·.air_quality_index))).map round2
        ∧ st.min2 = (minOpt ((filtered.filter (fun r =>
            r.location = st.location)).filterMap
              (·.air_quality_index))).map round2
        ∧ st.count = (filtered.filter (fun r =>
            r.location = st.location)).length)
    ∧ (∀ loc ∈ locs, filtered.filter (fun r => r.location = loc) = [] →
        ({ location := loc, mean2 := none, max2 := none, min2 := none,
           count := 0 } : LocStats) ∈ statisticsSection filtered locs) := by
  refine ⟨?_, ?_, ?_⟩
  · simp only [statisticsSection, List.map_map]
    exact List.map_id _
  · intro st hst
    simp only [statisticsSection, List.mem_map] at hst
    obtain ⟨loc, _, rfl⟩ := hst
    exact ⟨rfl, rfl, rfl, rfl⟩
  · intro loc hloc hempty
    refine List.mem_map.mpr ⟨loc, hloc, ?_⟩
    simp [hempty, meanOpt, maxOpt, minOpt]

/-- Witness for C5: on an empty dataset with one selected location, there is
exactly that location's entry and it is the all-NaN, count-zero block. -/
theorem statistics_section_spec_witness :
    (statisticsSection [] ["A"]).map (·.location) = ["A"]
    ∧ ({ location := "A", mean2 := none, max2 := none, min2 := none,
         count := 0 } : LocStats) ∈ statisticsSection [] ["A"] := by
  have h := statistics_section_spec [] ["A"]
  exact ⟨h.1, h.2.2 "A" (by decide) rfl⟩

/-- C6: any parse failure in `load_research_findings` propagates to the
caller — the function returns the very error, with no catching and no
synthetic fallback — whereas an error during the tab-change recomputation of
`update_research_findings` is caught at that boundary and replaced by empty
placeholder figures and an error message, with the module state (hence the
underlying dataset) left untouched. -/
theorem research_error_policies (f : Except ReadErr (List FindingsRow))
    (c : Except ReadErr (List CorrRow)) (env : ModuleEnv) :
    (∀ e, f = .error e → load_research_findings f c = .error e)
    ∧ (∀ fdf e, f = .ok fdf → c = .error e →
        load_research_findings f c = .error e)
    ∧ (∀ fdf cdf, f = .ok fdf → c = .ok cdf →
        load_research_findings f c
          = .ok (fdf, cdf.map coerceValue, categoryCounts fdf))
    ∧ (∀ e, env.healthFile = .error e →
        update_research_findings env
          = ((.emptyBar, .emptyBar, .errorFindingsDiv), env)) := by
  refine ⟨?_, ?_, ?_, ?_⟩
  · intro e he
    simp [load_research_findings, he, Bind.bind, Except.bind]
  · intro fdf e hf hc
    simp [load_research_findings, hf, hc, Bind.bind, Except.bind]
  · intro fdf cdf hf hc
    simp [load_research_findings, hf, hc, Bind.bind, Except.bind, pure,
      Except.pure]
  · intro e he
    simp [update_research_findings, he]

/-- The module state of the C6 witness: an unreadable correlations file. -/
def c6Env : ModuleEnv :=
  { correlations_df := none,
    healthFile := .error (.fileMissing "health_correlations.csv") }

/-- Witness for C6: a missing findings file propagates out of the loader,
and a failing re-read in the callback yields the placeholder triple with the
state unchanged. -/
theorem research_error_policies_witness :
    load_research_findings (.error (.fileMissing "research_findings.csv"))
        (.ok []) = .error (.fileMissing "research_findings.csv")
    ∧ update_research_findings c6Env
        = ((.emptyBar, .emptyBar, .errorFindingsDiv), c6Env) := by
  have h := research_error_policies
    (.error (.fileMissing "research_findings.csv")) (.ok []) c6Env
  exact ⟨h.1 _ rfl, h.2.2.2 _ rfl⟩

/-- A correlation row with a missing value for the PM2.5 parameter. -/
def c7Row : CorrParsed :=
  { parameter := some "PM2.5 Levels", detail := some "Annual mean",
    value := none }

/-- A correlation row with a present value. -/
def c7Valued : CorrParsed :=
  { parameter := some "Respiratory Issues", detail := some "Odds ratio",
    value := some 1 }

/-- A raw correlation row with a non-numeric value. -/
def c7Raw : CorrRow :=
  { parameter := some "PM2.5 Levels", detail := some "Annual mean",
    value := some "n/a" }

/-- C7 counterexample: a missing-value row is *not* excluded from every
numeric visualization — the PM2.5 bar chart of the key-findings page
receives it unfiltered. -/
theorem pm25_chart_keeps_missing_value :
    c7Row ∈ pm25Subset [c7Row]
    ∧ c7Row.value = none
    ∧ create_health_correlations_page
        { correlations_df := some [c7Row], healthFile := .ok [] }
      = .healthPage [c7Row] [] findingCards := by
  exact ⟨by decide, rfl, rfl⟩

/-- C7 (amended): rows with a missing value are excluded from the
health-metrics chart, the correlations-overview scatter and the health-risk
chart inputs, and a failed numeric coercion keeps the row in the raw
correlations dataset; the PM2.5 chart input, however, retains missing-value
rows. -/
theorem missing_values_chart_inputs (cdf : List CorrParsed)
    (raw : List CorrRow) :
    (∀ r ∈ validData cdf, r.value.isSome = true)
    ∧ (∀ r ∈ validData (trendsData cdf), r.value.isSome = true)
    ∧ (∀ r ∈ healthRiskSubset cdf, r.value.isSome = true)
    ∧ (∀ r ∈ cdf, r.parameter = some "PM2.5 Levels" → r ∈ pm25Subset cdf)
    ∧ (raw.map coerceValue).length = raw.length
    ∧ (∀ r ∈ raw, (coerceValue r).parameter = r.parameter
        ∧ (coerceValue r).detail = r.detail) := by
  refine ⟨?_, ?_, ?_, ?_, by simp, ?_⟩
  · intro r hr
    exact (List.mem_filter.mp hr).2
  · intro r hr
    exact (List.mem_filter.mp hr).2
  · intro r hr
    have h2 := (List.mem_filter.mp hr).2
    simp only [Bool.and_eq_true] at h2
    exact h2.2
  · intro r hr hp
    exact List.mem_filter.mpr ⟨hr, by simp [hp]⟩
  · intro r _
    exact ⟨rfl, rfl⟩

/-- Witness for C7 (amended): at a concrete two-row dataset, the valued row
reaches the health-metrics chart, the missing-value PM2.5 row stays in the
PM2.5 chart input, and a non-numeric raw row keeps its other columns. -/
theorem missing_values_chart_inputs_witness :
    c7Valued.value.isSome = true
    ∧ c7Row ∈ pm25Subset [c7Row, c7Valued]
    ∧ (coerceValue c7Raw).parameter = c7Raw.parameter
    ∧ (coerceValue c7Raw).detail = c7Raw.detail := by
  have h := missing_values_chart_inputs [c7Row, c7Valued] [c7Raw]
  refine ⟨h.1 c7Valued (by decide), h.2.2.2.1 c7Row (by decide) rfl, ?_⟩
  exact h.2.2.2.2.2 c7Raw (by decide)

/-- A finding row of category A with a missing detail. -/
def c8Row : FindingsRow := { category := some "A", detail := none }

/-- A finding row of category A with a present detail. -/
def c8Full : FindingsRow := { category := some "A", detail := some "d" }

/-- C8 counterexample: a finding row whose `detail` is missing belongs
to its category but is not counted by the category summary. -/
theorem category_count_ignores_missing_detail :
    categoryCounts [c8Row] = [("A", 0)]
    ∧ (([c8Row] : List FindingsRow).filter
        (fun r => r.category = some "A")).length = 1 := by
  exact ⟨by decide, by decide⟩

/-- C8 (amended): the category summary has one entry per distinct
non-missing category, mapping it to the number of that category's rows whose
`detail` is non-missing (pandas `count` skips missing cells). -/
theorem category_counts_amended (rows : List FindingsRow) :
    ((categoryCounts rows).map Prod.fst).Nodup
    ∧ (∀ c, c ∈ (categoryCounts rows).map Prod.fst ↔
        some c ∈ rows.map (·.category))
    ∧ (∀ p ∈ categoryCounts rows,
        p.2 = (rows.filter (fun r =>
          r.category = some p.1 ∧ r.detail.isSome)).length) := by
  have h1 : (categoryCounts rows).map Prod.fst
      = (rows.filterMap (·.category)).dedup := by
    simp only [categoryCounts, List.map_map]
    exact List.map_id _
  refine ⟨?_, ?_, ?_⟩
  · rw [h1]
    exact List.nodup_dedup _
  · intro c
    rw [h1]
    simp [List.mem_dedup, List.mem_filterMap]
  · intro p hp
    simp only [categoryCounts, List.mem_map] at hp
    obtain ⟨c, _, rfl⟩ := hp
    rw [length_filterMap_eq_filter_isSome, List.filter_filter]
    refine congrArg List.length (List.filter_congr fun a _ => ?_)
    simp [Bool.and_comm]

/-- Witness for C8 (amended): with one counted and one detail-missing row of
category A, the summary entry for A carries count 1. -/
theorem category_counts_amended_witness :
    (1 : ℕ) = (([c8Row, c8Full] : List FindingsRow).filter (fun r =>
        r.category = some "A" ∧ r.detail.isSome)).length
    ∧ "A" ∈ (categoryCounts [c8Row, c8Full]).map Prod.fst := by
  have h := category_counts_amended [c8Row, c8Full]
  exact ⟨by simpa using h.2.2 ("A", 1) (by decide),
    (h.2.1 "A").mpr (by decide)⟩

/-- Read of an allocated reference below the allocation point is
unchanged. -/
theorem readRef_alloc (st : Store) (o : DObj) (r : ℕ)
    (h : r < st.objs.length) :
    (st.alloc o).1.readRef r = st.readRef r := by
  simp only [Store.alloc, Store.readRef, List.get?_eq_getElem?]
  rw [List.getElem?_append, if_pos h]

/-- In-place mutation of one reference leaves every other reference
unchanged. -/
theorem readRef_write_ne (st : Store) (w r : ℕ) (o : DObj) (h : w ≠ r) :
    (st.write w o).readRef r = st.readRef r := by
  simp only [Store.write, Store.readRef, List.get?_eq_getElem?]
  exact List.getElem?_set_ne h

/-- C9: the once-loaded base sensor frame is never mutated by a filter
recomputation: after any invocation of `update_figures`, the object the
module binding points to is identical to what it was before the call — the
copy, the filtered frames, the in-place date column and the daily averages
all live in freshly allocated objects. -/
theorem update_figures_preserves_base (st : Store) (ref : ℕ)
    (locs : List String) (sd ed : Option Int)
    (h : ref < st.objs.length) :
    ((update_figures st ref locs sd ed).1).readRef ref = st.readRef ref := by
  cases hobj : st.readRef ref with
  | none => simp [update_figures, hobj]
  | some obj =>
    rw [Store.readRef, List.get?_eq_getElem?] at hobj
    simp only [update_figures, Store.alloc, Store.write, Store.readRef,
      List.get?_eq_getElem?, hobj]
    rw [List.getElem?_append, if_pos (by simp [List.length_set]; omega)]
    rw [List.getElem?_set_ne (by simp; omega)]
    rw [List.getElem?_append, if_pos (by simp; omega)]
    rw [List.getElem?_append, if_pos h]
    exact hobj

/-- The one-object store of the C9 witness. -/
def c9Store : Store := { objs := [DObj.plain []] }

/-- Witness for C9: on a concrete store, the base reference reads the same
object before and after the callback. -/
theorem update_figures_preserves_base_witness :
    0 < c9Store.objs.length
    ∧ ((update_figures c9Store 0 [] none none).1).readRef 0
        = c9Store.readRef 0 :=
  ⟨by decide,
   update_figures_preserves_base c9Store 0 [] none none (by decide)⟩

/-- A raw correlation row read freshly from `health_correlations.csv` in the
C10 instances. -/
def c10Raw : CorrRow :=
  { parameter := some "PM2.5 Levels", detail := some "d", value := some "x" }

/-- The module state of the C10 witness: an empty module-level binding next
to a non-empty fresh file. -/
def c10Env : ModuleEnv :=
  { correlations_df := some [], healthFile := .ok [c10Raw] }

/-- The module state with the global `correlations_df` unbound. -/
def c10NoneEnv : ModuleEnv :=
  { correlations_df := none, healthFile := .ok [] }

/-- C10: on a tab change the key-findings content is computed from the
module-level `correlations_df`, not from the freshly re-read file — two
invocations agreeing on the module binding agree on the key findings
whatever the fresh reads return, and the page can disagree with a page built
from the fresh data; and when the module binding does not exist, the page
function returns the fixed error placeholder instead of raising. -/
theorem key_findings_module_binding (env env2 : ModuleEnv)
    (rows rows2 : List CorrRow) :
    (env.healthFile = .ok rows →
      (update_research_findings env).1.2.2
        = create_health_correlations_page env)
    ∧ (env.healthFile = .ok rows → env2.healthFile = .ok rows2 →
      env.correlations_df = env2.correlations_df →
      (update_research_findings env).1.2.2
        = (update_research_findings env2).1.2.2)
    ∧ (env.correlations_df = none →
      create_health_correlations_page env = .errorHealthDiv)
    ∧ (∃ e : ModuleEnv, ∃ rs : List CorrRow, e.healthFile = .ok rs ∧
        (update_research_findings e).1.2.2
          ≠ create_health_correlations_page
              { correlations_df := some (rs.map coerceValue),
                healthFile := e.healthFile }) := by
  refine ⟨?_, ?_, ?_, ?_⟩
  · intro hf
    simp [update_research_findings, hf]
  · intro hf hf2 hc
    simp [update_research_findings, hf, hf2,
      create_health_correlations_page, hc]
  · intro hc
    simp [create_health_correlations_page, hc]
  · exact ⟨c10Env, [c10Raw], rfl, by decide⟩

/-- Witness for C10: at concrete module states, the key findings equal the
module-binding page, and the unbound-global state yields the placeholder. -/
theorem key_findings_module_binding_witness :
    (update_research_findings c10Env).1.2.2
        = create_health_correlations_page c10Env
    ∧ create_health_correlations_page c10NoneEnv = .errorHealthDiv := by
  have ha := key_findings_module_binding c10Env c10Env [c10Raw] [c10Raw]
  have hb := key_findings_module_binding c10NoneEnv c10NoneEnv [] []
  exact ⟨ha.1 rfl, hb.2.2.1 rfl⟩
